import Mathlib

/-!
Shallow embedding of `src/audio_analyzer.py` (WeVid).

The Python module has two classes:
* `AudioAnalyzer` — uploads a local audio file (or takes a URL), submits a
  transcription job, polls its status on a fixed 30-second interval, and maps
  the completed response's `chapters` list into `AudioSegment` records.
* `ContentMatcher` — accumulates `AudioSegment`s and ranks them against user
  preferences (`topics` list, `preferred_tone` string).

Modelling conventions:
* Python floats (scores, confidence) are modelled as exact rationals `ℚ`;
  the literals 0.5, 0.3, 1.0 of the source become `1/2`, `3/10`, `1`.
* Python `set(...) & set(...)` becomes `List.toFinset _ ∩ List.toFinset _`.
* The HTTP service is an oracle (`Env`) supplying each endpoint's response;
  network requests and `time.sleep` calls are recorded in an event trace.
* Python exceptions become an explicit `PyError` value; the unbounded polling
  loop takes a fuel parameter and returns `none` when the fuel runs out
  without the job reaching a terminal status.
* `sorted(matches, key=lambda x: x[1], reverse=True)` is a stable descending
  sort on the score component; it is modelled by the stable insertion sort
  `sortDesc` (stability plus sortedness determines the output uniquely, so
  any faithful model of CPython's stable `sorted` agrees with it).
-/

/-- `AudioSegment` dataclass of the source: one analyzed chapter. -/
structure AudioSegment where
  start_ms : Int
  end_ms : Int
  text : String
  topics : List String
  sentiment : String
  confidence : ℚ
deriving DecidableEq

/-- The `user_preferences` dict of `match_content`: the two recognized keys,
each possibly absent (`dict.get` returning the default). -/
structure UserPreferences where
  topics : Option (List String)
  preferred_tone : Option String
deriving DecidableEq

/-- Scoring of one segment, inlined in the loop body of
`ContentMatcher.match_content` (source lines 163-174):
`score = 0.0`; `score += len(set(segment.topics) & set(prefs.get('topics', []))) * 0.5`;
`score += 0.3 if segment.sentiment == prefs.get('preferred_tone')`;
`score *= segment.confidence`. -/
def segmentScore (segment : AudioSegment) (user_preferences : UserPreferences) : ℚ :=
  let score : ℚ := 0
  let common_topics := segment.topics.toFinset ∩ (user_preferences.topics.getD []).toFinset
  let score := score + (common_topics.card : ℚ) * (1/2)
  let score := if user_preferences.preferred_tone = some segment.sentiment
    then score + 3/10 else score
  score * segment.confidence

/-- Stable insertion (descending by score): `x` is placed before the first
element whose score is `≤` its own, so it precedes every equal-score element
already in the list. -/
def insertDesc (x : AudioSegment × ℚ) : List (AudioSegment × ℚ) → List (AudioSegment × ℚ)
  | [] => [x]
  | y :: ys => if y.2 ≤ x.2 then x :: y :: ys else y :: insertDesc x ys

/-- Stable descending sort by score: the model of
`sorted(matches, key=lambda x: x[1], reverse=True)`. -/
def sortDesc : List (AudioSegment × ℚ) → List (AudioSegment × ℚ)
  | [] => []
  | x :: xs => insertDesc x (sortDesc xs)

/-- `ContentMatcher`: its only state is the accumulated segment list. -/
structure ContentMatcher where
  segments : List AudioSegment
deriving DecidableEq

/-- `ContentMatcher.__init__`: empty working set. -/
def ContentMatcher.init : ContentMatcher := ⟨[]⟩

/-- `ContentMatcher.add_segments`: `self.segments.extend(segments)`. -/
def ContentMatcher.add_segments (m : ContentMatcher) (segments : List AudioSegment) :
    ContentMatcher :=
  ⟨m.segments ++ segments⟩

/-- `ContentMatcher.match_content`: score each segment in working-set order,
keep those with `score > 0`, and return them sorted descending by score. -/
def ContentMatcher.match_content (m : ContentMatcher) (user_preferences : UserPreferences) :
    List (AudioSegment × ℚ) :=
  let kept := (m.segments.map (fun s => (s, segmentScore s user_preferences))).filter
    (fun x => decide (0 < x.2))
  sortDesc kept

/-- Python exceptions raised by `audio_analyzer.py`, by type and payload.
`KeyError k` carries the missing key; `str(KeyError(k))` is `'k'` (quoted). -/
inductive PyError where
  | fileNotFoundError (msg : String)
  | runtimeError (msg : String)
  | keyError (key : String)
deriving DecidableEq

/-- `str(e)` on a modelled exception, as interpolated into the message
`"Failed to upload file: " + str(e)`. -/
def PyError.str : PyError → String
  | .fileNotFoundError m => m
  | .runtimeError m => m
  | .keyError k => "'" ++ k ++ "'"

/-- Observable side effects of one `analyze_audio` call: the three HTTP
requests the source can issue, and the fixed `time.sleep(30)` of the
polling loop. -/
inductive Event where
  | uploadPost (file_path : String)
  | transcriptPost (audio_url : String)
  | transcriptGet (transcript_id : String)
  | sleep (seconds : Nat)
deriving DecidableEq

/-- Response of `POST /upload` as the source reads it: `status_code`,
`text` (body), and the `upload_url` field of the JSON body (`none` when the
key is absent, which would raise `KeyError`). -/
structure UploadHttp where
  status_code : Nat
  text : String
  upload_url : Option String
deriving DecidableEq

/-- Response of `POST /transcript` as the source reads it: `status_code`
and the `id` field of the JSON body. -/
structure SubmitHttp where
  status_code : Nat
  text : String
  id : Option String
deriving DecidableEq

/-- One chapter object of the completed transcript's `chapters` array.
Every key may be absent in the JSON; the source indexes `start`/`end`
directly (KeyError when absent) and uses `.get` defaults for the rest. -/
structure Chapter where
  start : Option Int
  «end» : Option Int
  summary : Option String
  topics : Option (List String)
  sentiment : Option String
  confidence : Option ℚ
deriving DecidableEq

/-- Body of a `GET /transcript/id` response as the source reads it:
`status`, `error` and `chapters`, each via `.get`. -/
structure TranscriptJson where
  status : Option String
  error : Option String
  chapters : Option (List Chapter)
deriving DecidableEq

/-- Oracle for the outside world in one `analyze_audio` call: local file
existence and the service's response to each request (the polling response
may vary by attempt number). -/
structure Env where
  file_exists : String → Bool
  upload_response : UploadHttp
  submit_response : SubmitHttp
  poll_response : Nat → TranscriptJson

/-- `AudioAnalyzer._upload_file` (lines 30-52): issues one `POST /upload`;
a non-200 status raises `RuntimeError("Upload failed: " + response.text)`,
otherwise returns `response.json()["upload_url"]` (KeyError if absent).
Result is paired with the trace of issued events. -/
def _upload_file (env : Env) (file_path : String) :
    Except PyError String × List Event :=
  let r := env.upload_response
  let trace := [Event.uploadPost file_path]
  if r.status_code ≠ 200 then
    (.error (.runtimeError ("Upload failed: " ++ r.text)), trace)
  else
    match r.upload_url with
    | some u => (.ok u, trace)
    | none => (.error (.keyError "upload_url"), trace)

/-- The `while True` polling loop (lines 113-127), one fuel unit per
iteration; `n` counts prior attempts. Each iteration issues one GET;
`completed` ends the loop with the transcript, `error` raises
`RuntimeError("Transcription failed: " + transcript.get("error", "Unknown error"))`,
anything else sleeps 30 seconds and retries. `none` means the fuel was
exhausted with the job still non-terminal. -/
def pollLoop (env : Env) (transcript_id : String) :
    Nat → Nat → Option (Except PyError TranscriptJson × List Event)
  | 0, _ => none
  | fuel + 1, n =>
    let t := env.poll_response n
    if t.status = some "completed" then
      some (.ok t, [Event.transcriptGet transcript_id])
    else if t.status = some "error" then
      some (.error (.runtimeError ("Transcription failed: " ++ t.error.getD "Unknown error")),
        [Event.transcriptGet transcript_id])
    else
      match pollLoop env transcript_id fuel (n + 1) with
      | none => none
      | some (r, trace) =>
        some (r, Event.transcriptGet transcript_id :: Event.sleep 30 :: trace)

/-- Construction of one `AudioSegment` from a chapter (lines 138-145):
`chapter["start"]` and `chapter["end"]` are indexed directly (in that
evaluation order), the remaining fields use `.get` defaults. -/
def parseChapter (chapter : Chapter) : Except PyError AudioSegment :=
  match chapter.start with
  | none => .error (.keyError "start")
  | some s =>
    match chapter.«end» with
    | none => .error (.keyError "end")
    | some e =>
      .ok { start_ms := s, end_ms := e,
            text := chapter.summary.getD "",
            topics := chapter.topics.getD [],
            sentiment := chapter.sentiment.getD "neutral",
            confidence := chapter.confidence.getD 1 }

/-- The `for chapter in chapters` loop (lines 137-146): segments accumulate
in order; the first raised exception aborts the whole call. -/
def parseChapters : List Chapter → Except PyError (List AudioSegment)
  | [] => .ok []
  | c :: cs =>
    match parseChapter c with
    | .error e => .error e
    | .ok seg =>
      match parseChapters cs with
      | .error e => .error e
      | .ok rest => .ok (seg :: rest)

/-- Result processing after a completed poll (lines 130-148):
`chapters = transcript.get("chapters", [])`; an absent or empty list
returns `[]` successfully, otherwise each chapter is mapped in order. -/
def processResults (transcript : TranscriptJson) : Except PyError (List AudioSegment) :=
  let chapters := transcript.chapters.getD []
  if chapters.isEmpty then .ok []
  else parseChapters chapters

/-- `AudioAnalyzer.analyze_audio` (lines 54-148) over the oracle `env`,
with `fuel` bounding the number of polling iterations. Returns `none` when
polling never reaches a terminal status within the fuel; otherwise the
call's outcome paired with the full event trace. -/
def analyze_audio (env : Env) (fuel : Nat) (audio_path : String) (is_url : Bool) :
    Option (Except PyError (List AudioSegment) × List Event) :=
  if !is_url && !env.file_exists audio_path then
    some (.error (.fileNotFoundError ("Audio file not found: " ++ audio_path)), [])
  else
    let up := if is_url then (Except.ok audio_path, ([] : List Event))
              else _upload_file env audio_path
    match up with
    | (.error e, trace) =>
      some (.error (.runtimeError ("Failed to upload file: " ++ e.str)), trace)
    | (.ok audio_url, trace) =>
      let trace := trace ++ [Event.transcriptPost audio_url]
      let r := env.submit_response
      if r.status_code ≠ 200 then
        some (.error (.runtimeError
          ("Failed to create transcription. Status code: " ++ toString r.status_code)), trace)
      else
        match r.id with
        | none => some (.error (.runtimeError
            "Failed to get transcription ID from API response"), trace)
        | some transcript_id =>
          match pollLoop env transcript_id fuel 0 with
          | none => none
          | some (.error e, ptrace) => some (.error e, trace ++ ptrace)
          | some (.ok transcript, ptrace) =>
            some (processResults transcript, trace ++ ptrace)

/-! Lemmas about the stable descending sort. -/

/-- Score order used by `match_content`: later entries score no higher. -/
def ScoreDesc : AudioSegment × ℚ → AudioSegment × ℚ → Prop := fun a b => b.2 ≤ a.2

theorem mem_insertDesc (x a : AudioSegment × ℚ) (l : List (AudioSegment × ℚ)) :
    a ∈ insertDesc x l ↔ a = x ∨ a ∈ l := by
  induction l with
  | nil => simp [insertDesc]
  | cons y ys ih =>
    simp only [insertDesc]
    split
    · simp [List.mem_cons]
    · simp [List.mem_cons, ih]
      tauto

theorem pairwise_insertDesc (x : AudioSegment × ℚ) (l : List (AudioSegment × ℚ))
    (hl : List.Pairwise ScoreDesc l) : List.Pairwise ScoreDesc (insertDesc x l) := by
  induction l with
  | nil => simp [insertDesc, ScoreDesc]
  | cons y ys ih =>
    rcases List.pairwise_cons.mp hl with ⟨hy, hys⟩
    simp only [insertDesc]
    split
    · rename_i hle
      refine List.pairwise_cons.mpr ⟨?_, hl⟩
      intro b hb
      rcases List.mem_cons.mp hb with rfl | hb
      · exact hle
      · exact le_trans (hy b hb) hle
    · rename_i hle
      refine List.pairwise_cons.mpr ⟨?_, ih hys⟩
      intro b hb
      rcases (mem_insertDesc x b ys).mp hb with rfl | hb
      · exact le_of_not_le hle
      · exact hy b hb

theorem filter_insertDesc (q : ℚ) (x : AudioSegment × ℚ) (l : List (AudioSegment × ℚ)) :
    (insertDesc x l).filter (fun a => decide (a.2 = q))
      = if x.2 = q then x :: l.filter (fun a => decide (a.2 = q))
        else l.filter (fun a => decide (a.2 = q)) := by
  induction l with
  | nil => by_cases hx : x.2 = q <;> simp [insertDesc, hx]
  | cons y ys ih =>
    simp only [insertDesc]
    split
    · rename_i hle
      by_cases hx : x.2 = q <;> simp [List.filter_cons, hx]
    · rename_i hle
      by_cases hx : x.2 = q
      · have hy : ¬ (y.2 = q) := fun h => hle (le_of_eq (h.trans hx.symm))
        simp [List.filter_cons, hy, ih, hx]
      · simp [List.filter_cons, ih, hx]

theorem sortDesc_pairwise (l : List (AudioSegment × ℚ)) :
    List.Pairwise ScoreDesc (sortDesc l) := by
  induction l with
  | nil => simp [sortDesc]
  | cons x xs ih => exact pairwise_insertDesc x (sortDesc xs) ih

theorem sortDesc_filter (q : ℚ) (l : List (AudioSegment × ℚ)) :
    (sortDesc l).filter (fun a => decide (a.2 = q)) = l.filter (fun a => decide (a.2 = q)) := by
  induction l with
  | nil => simp [sortDesc]
  | cons x xs ih =>
    simp only [sortDesc, filter_insertDesc, ih, List.filter_cons]
    by_cases hx : x.2 = q <;> simp [hx]

theorem mem_sortDesc (a : AudioSegment × ℚ) (l : List (AudioSegment × ℚ)) :
    a ∈ sortDesc l ↔ a ∈ l := by
  induction l with
  | nil => simp [sortDesc]
  | cons x xs ih => simp [sortDesc, mem_insertDesc, ih]

/-! Claim theorems. -/

/-- Claim C9: adding segments in two batches is the same as adding their
concatenation — the working set is `A ++ B` appended to the previous one,
with no truncation and no deduplication, so any later `match_content` call
sees every segment of both batches. -/
theorem add_segments_batches (m : ContentMatcher) (A B : List AudioSegment) :
    (m.add_segments A).add_segments B = m.add_segments (A ++ B)
    ∧ ((m.add_segments A).add_segments B).segments = m.segments ++ (A ++ B)
    ∧ ∀ prefs : UserPreferences, ((m.add_segments A).add_segments B).match_content prefs
        = (m.add_segments (A ++ B)).match_content prefs := by
  refine ⟨?_, ?_, ?_⟩ <;> simp [ContentMatcher.add_segments, List.append_assoc]

/-- Claim C3: `match_content` output is sorted by descending score, and the
entries carrying any fixed score appear exactly as they do in the unsorted
pass over the working set — i.e. in insertion order (stability). -/
theorem match_content_sorted_stable (m : ContentMatcher) (prefs : UserPreferences) :
    List.Pairwise ScoreDesc (m.match_content prefs)
    ∧ ∀ q : ℚ, (m.match_content prefs).filter (fun x => decide (x.2 = q))
        = ((m.segments.map (fun s => (s, segmentScore s prefs))).filter
            (fun x => decide (0 < x.2))).filter (fun x => decide (x.2 = q)) :=
  ⟨sortDesc_pairwise _, fun q => sortDesc_filter q _⟩

/-- Claim C2: a `(segment, score)` pair is in the `match_content` output iff
the segment is in the working set, the score is its computed score, and that
score is strictly positive; consequently a segment with confidence 0 never
appears, and neither does one with no topic overlap and a mismatched tone. -/
theorem match_content_mem_iff (m : ContentMatcher) (prefs : UserPreferences)
    (seg : AudioSegment) (q : ℚ) :
    ((seg, q) ∈ m.match_content prefs
      ↔ seg ∈ m.segments ∧ q = segmentScore seg prefs ∧ 0 < q)
    ∧ (seg.confidence = 0 → (seg, q) ∉ m.match_content prefs)
    ∧ (seg.topics.toFinset ∩ (prefs.topics.getD []).toFinset = ∅ →
        prefs.preferred_tone ≠ some seg.sentiment → (seg, q) ∉ m.match_content prefs) := by
  have h1 : (seg, q) ∈ m.match_content prefs
      ↔ seg ∈ m.segments ∧ q = segmentScore seg prefs ∧ 0 < q := by
    unfold ContentMatcher.match_content
    rw [mem_sortDesc]
    simp only [List.mem_filter, List.mem_map, decide_eq_true_eq]
    constructor
    · rintro ⟨⟨s, hs, heq⟩, hpos⟩
      rw [Prod.mk.injEq] at heq
      obtain ⟨rfl, rfl⟩ := heq
      exact ⟨hs, rfl, hpos⟩
    · rintro ⟨hs, rfl, hpos⟩
      exact ⟨⟨seg, hs, rfl⟩, hpos⟩
  refine ⟨h1, ?_, ?_⟩
  · intro hc hmem
    rcases h1.mp hmem with ⟨-, rfl, hpos⟩
    have : segmentScore seg prefs = 0 := by simp [segmentScore, hc]
    exact absurd (this ▸ hpos) (lt_irrefl 0)
  · intro hinter htone hmem
    rcases h1.mp hmem with ⟨-, rfl, hpos⟩
    have : segmentScore seg prefs = 0 := by
      simp [segmentScore, hinter, htone]
    exact absurd (this ▸ hpos) (lt_irrefl 0)

/-- Claim C1: with both preference keys present, the score of a segment is
`(|topics ∩ T| * 0.5 + (0.3 if sentiment == preferred_tone else 0)) * confidence`;
in particular the spec's worked example scores `16/25 = 0.64`. -/
theorem segmentScore_formula :
    (∀ (seg : AudioSegment) (T : List String) (P : String),
      segmentScore seg ⟨some T, some P⟩
        = (((seg.topics.toFinset ∩ T.toFinset).card : ℚ) * (1/2)
            + (if seg.sentiment = P then (3/10 : ℚ) else 0)) * seg.confidence)
    ∧ segmentScore ⟨0, 1000, "", ["tech", "sports"], "positive", 4/5⟩
        ⟨some ["tech"], some "positive"⟩ = 16/25 := by
  constructor
  · intro seg T P
    by_cases h : seg.sentiment = P
    · simp [segmentScore, h]
    · have h' : ¬ (P = seg.sentiment) := fun hh => h hh.symm
      simp [segmentScore, h, h']
  · have hcard : (((["tech", "sports"] : List String).toFinset
        ∩ (["tech"] : List String).toFinset).card) = 1 := by decide
    simp [segmentScore, hcard]
    norm_num

/-- Claim C2 witness: in a concrete three-segment working set with
preferences `topics=[]`, `preferred_tone="positive"`, the matching
confident segment is included with score 3/10, the confidence-0 segment is
excluded, and the mismatched-tone segment is excluded. -/
theorem match_content_mem_iff_witness :
    ((⟨0, 1, "", [], "positive", 1⟩ : AudioSegment), (3/10 : ℚ))
        ∈ (ContentMatcher.mk [⟨0, 1, "", [], "positive", 1⟩, ⟨1, 2, "", [], "positive", 0⟩,
            ⟨2, 3, "", [], "negative", 1⟩]).match_content ⟨some [], some "positive"⟩
    ∧ ((⟨1, 2, "", [], "positive", 0⟩ : AudioSegment), (3/10 : ℚ))
        ∉ (ContentMatcher.mk [⟨0, 1, "", [], "positive", 1⟩, ⟨1, 2, "", [], "positive", 0⟩,
            ⟨2, 3, "", [], "negative", 1⟩]).match_content ⟨some [], some "positive"⟩
    ∧ ((⟨2, 3, "", [], "negative", 1⟩ : AudioSegment), (0 : ℚ))
        ∉ (ContentMatcher.mk [⟨0, 1, "", [], "positive", 1⟩, ⟨1, 2, "", [], "positive", 0⟩,
            ⟨2, 3, "", [], "negative", 1⟩]).match_content ⟨some [], some "positive"⟩ :=
  ⟨(match_content_mem_iff _ _ _ _).1.mpr
      ⟨by simp, by norm_num [segmentScore], by norm_num⟩,
   (match_content_mem_iff _ _ _ _).2.1 rfl,
   (match_content_mem_iff _ _ _ _).2.2 (by decide) (by decide)⟩

/-- Claim C8: `_upload_file` issues exactly one POST; on a 200 response it
returns the service's `upload_url` string (hence a non-empty string whenever
the service's is non-empty), and on any other status it fails with the
upload error carrying the response body, with no second request. -/
theorem upload_file_contract (env : Env) (file_path : String) :
    (∀ u : String, env.upload_response.status_code = 200 →
        env.upload_response.upload_url = some u →
        _upload_file env file_path = (.ok u, [Event.uploadPost file_path]))
    ∧ (∀ u : String, env.upload_response.status_code = 200 →
        env.upload_response.upload_url = some u → u ≠ "" →
        ∃ v : String, (_upload_file env file_path).1 = .ok v ∧ v ≠ "")
    ∧ (env.upload_response.status_code ≠ 200 →
        _upload_file env file_path
          = (.error (.runtimeError ("Upload failed: " ++ env.upload_response.text)),
             [Event.uploadPost file_path])) := by
  have h1 : ∀ u : String, env.upload_response.status_code = 200 →
      env.upload_response.upload_url = some u →
      _upload_file env file_path = (.ok u, [Event.uploadPost file_path]) := by
    intro u h200 hurl
    simp [_upload_file, h200, hurl]
  refine ⟨h1, ?_, ?_⟩
  · intro u h200 hurl hne
    exact ⟨u, by rw [h1 u h200 hurl], hne⟩
  · intro hne
    simp [_upload_file, hne]

/-- Claim C8 witness: a 200 response with `upload_url` yields that URL after
one POST; a 500 response yields the upload failure carrying the body. -/
theorem upload_file_contract_witness :
    (_upload_file ⟨fun _ => true, ⟨200, "ok", some "https://u"⟩, ⟨200, "", none⟩,
        fun _ => ⟨none, none, none⟩⟩ "a.mp3"
      = (.ok "https://u", [Event.uploadPost "a.mp3"]))
    ∧ (_upload_file ⟨fun _ => true, ⟨500, "server error", none⟩, ⟨200, "", none⟩,
        fun _ => ⟨none, none, none⟩⟩ "a.mp3"
      = (.error (.runtimeError ("Upload failed: " ++ "server error")),
         [Event.uploadPost "a.mp3"])) :=
  ⟨(upload_file_contract _ "a.mp3").1 "https://u" rfl rfl,
   (upload_file_contract _ "a.mp3").2.2 (by decide)⟩

/-- Claim C6: on a non-URL source whose local file does not exist,
`analyze_audio` fails with the file-not-found error and its event trace is
empty — no upload, submission, polling request or sleep happened. -/
theorem analyze_audio_notfound (env : Env) (fuel : Nat) (audio_path : String)
    (h : env.file_exists audio_path = false) :
    analyze_audio env fuel audio_path false
      = some (.error (.fileNotFoundError ("Audio file not found: " ++ audio_path)), []) := by
  simp [analyze_audio, h]

/-- Claim C6 witness: concrete missing path, empty trace. -/
theorem analyze_audio_notfound_witness :
    analyze_audio ⟨fun _ => false, ⟨200, "", none⟩, ⟨200, "", none⟩,
        fun _ => ⟨none, none, none⟩⟩ 5 "missing.mp3" false
      = some (.error (.fileNotFoundError ("Audio file not found: " ++ "missing.mp3")), []) :=
  analyze_audio_notfound _ 5 "missing.mp3" rfl

/-- Claim C5: a completed transcription whose `chapters` field is absent or
an empty list makes `analyze_audio` return the empty segment list
successfully (here for a URL source, after one submission and one poll). -/
theorem analyze_audio_no_chapters (env : Env) (fuel : Nat) (audio_path tid : String)
    (h200 : env.submit_response.status_code = 200)
    (hid : env.submit_response.id = some tid)
    (hdone : (env.poll_response 0).status = some "completed")
    (hch : (env.poll_response 0).chapters = none ∨ (env.poll_response 0).chapters = some []) :
    analyze_audio env (fuel + 1) audio_path true
      = some (.ok [], [Event.transcriptPost audio_path, Event.transcriptGet tid]) := by
  rcases hch with h | h <;>
    simp [analyze_audio, pollLoop, processResults, h200, hid, hdone, h]

/-- Claim C5 witness: a concrete completed chapterless response gives
`Except.ok []`. -/
theorem analyze_audio_no_chapters_witness :
    analyze_audio ⟨fun _ => true, ⟨200, "", some "u"⟩, ⟨200, "", some "tid"⟩,
        fun _ => ⟨some "completed", none, none⟩⟩ 1 "http://a.mp3" true
      = some (.ok [], [Event.transcriptPost "http://a.mp3", Event.transcriptGet "tid"]) :=
  analyze_audio_no_chapters _ 0 "http://a.mp3" "tid" rfl rfl rfl (Or.inl rfl)

/-- Claim C7: each polling iteration issues one GET; status `completed` ends
the loop with the transcript, status `error` fails with the service-reported
message (default "Unknown error"), any other status sleeps exactly 30
seconds and retries; and if no response is ever terminal the loop never
returns, whatever the iteration bound — no timeout or retry cap exists. -/
theorem pollLoop_behavior (env : Env) (tid : String) (fuel n : Nat) :
    ((env.poll_response n).status = some "completed" →
        pollLoop env tid (fuel + 1) n
          = some (.ok (env.poll_response n), [Event.transcriptGet tid]))
    ∧ ((env.poll_response n).status = some "error" →
        pollLoop env tid (fuel + 1) n
          = some (.error (.runtimeError ("Transcription failed: "
              ++ (env.poll_response n).error.getD "Unknown error")),
             [Event.transcriptGet tid]))
    ∧ ((env.poll_response n).status ≠ some "completed" →
       (env.poll_response n).status ≠ some "error" →
        pollLoop env tid (fuel + 1) n
          = match pollLoop env tid fuel (n + 1) with
            | none => none
            | some (r, trace) =>
              some (r, Event.transcriptGet tid :: Event.sleep 30 :: trace))
    ∧ ((∀ k : Nat, (env.poll_response k).status ≠ some "completed"
          ∧ (env.poll_response k).status ≠ some "error") →
        ∀ (fuel' m : Nat), pollLoop env tid fuel' m = none) := by
  refine ⟨?_, ?_, ?_, ?_⟩
  · intro h; simp [pollLoop, h]
  · intro h; simp [pollLoop, h]
  · intro h1 h2; simp [pollLoop, h1, h2]
  · intro hall fuel'
    induction fuel' with
    | zero => intro m; rfl
    | succ f ih => intro m; simp [pollLoop, (hall m).1, (hall m).2, ih (m + 1)]

/-- Claim C7 witness: concrete completed, error, and forever-queued polls. -/
theorem pollLoop_behavior_witness :
    (pollLoop ⟨fun _ => true, ⟨200, "", none⟩, ⟨200, "", none⟩,
        fun _ => ⟨some "completed", none, none⟩⟩ "tid" 1 0
      = some (.ok ⟨some "completed", none, none⟩, [Event.transcriptGet "tid"]))
    ∧ (pollLoop ⟨fun _ => true, ⟨200, "", none⟩, ⟨200, "", none⟩,
        fun _ => ⟨some "error", some "boom", none⟩⟩ "tid" 1 0
      = some (.error (.runtimeError ("Transcription failed: " ++ "boom")),
         [Event.transcriptGet "tid"]))
    ∧ (pollLoop ⟨fun _ => true, ⟨200, "", none⟩, ⟨200, "", none⟩,
        fun _ => ⟨some "queued", none, none⟩⟩ "tid" 2 0
      = match pollLoop ⟨fun _ => true, ⟨200, "", none⟩, ⟨200, "", none⟩,
            fun _ => ⟨some "queued", none, none⟩⟩ "tid" 1 1 with
        | none => none
        | some (r, trace) => some (r, Event.transcriptGet "tid" :: Event.sleep 30 :: trace))
    ∧ (∀ fuel' m : Nat, pollLoop ⟨fun _ => true, ⟨200, "", none⟩, ⟨200, "", none⟩,
        fun _ => ⟨some "queued", none, none⟩⟩ "tid" fuel' m = none) :=
  ⟨(pollLoop_behavior _ "tid" 0 0).1 rfl,
   (pollLoop_behavior _ "tid" 0 0).2.1 rfl,
   (pollLoop_behavior _ "tid" 1 0).2.2.1 (by decide) (by decide),
   (pollLoop_behavior _ "tid" 0 0).2.2.2 (fun k =>
      ⟨by show some "queued" ≠ some "completed"; decide,
       by show some "queued" ≠ some "error"; decide⟩)⟩

/-- Claim C4: a chapter with `start` and `end` present parses to a segment
that copies `start`/`end` into `start_ms`/`end_ms`, takes `summary`,
`topics`, `sentiment`, `confidence` verbatim when present, and defaults them
to `""`, `[]`, `"neutral"`, `1` respectively when absent; such a chapter in
a completed transcript yields exactly that segment. -/
theorem parseChapter_defaults (c : Chapter) (s e : Int)
    (hs : c.start = some s) (he : c.«end» = some e) :
    ∃ seg : AudioSegment, parseChapter c = .ok seg
      ∧ seg.start_ms = s ∧ seg.end_ms = e
      ∧ (c.sentiment = none → seg.sentiment = "neutral")
      ∧ (∀ v, c.sentiment = some v → seg.sentiment = v)
      ∧ (c.confidence = none → seg.confidence = 1)
      ∧ (∀ v, c.confidence = some v → seg.confidence = v)
      ∧ (c.summary = none → seg.text = "")
      ∧ (∀ v, c.summary = some v → seg.text = v)
      ∧ (c.topics = none → seg.topics = [])
      ∧ (∀ v, c.topics = some v → seg.topics = v)
      ∧ (∀ t : TranscriptJson, t.chapters = some [c] → processResults t = .ok [seg]) := by
  refine ⟨⟨s, e, c.summary.getD "", c.topics.getD [], c.sentiment.getD "neutral",
      c.confidence.getD 1⟩, ?_, rfl, rfl, ?_, ?_, ?_, ?_, ?_, ?_, ?_, ?_, ?_⟩
  · simp [parseChapter, hs, he]
  · intro h; rw [h]; rfl
  · intro v h; rw [h]; rfl
  · intro h; rw [h]; rfl
  · intro v h; rw [h]; rfl
  · intro h; rw [h]; rfl
  · intro v h; rw [h]; rfl
  · intro h; rw [h]; rfl
  · intro v h; rw [h]; rfl
  · intro t ht
    simp [processResults, ht, parseChapters, parseChapter, hs, he]

/-- Claim C4 witness: a chapter with only `start`/`end` parses with all
defaults applied. -/
theorem parseChapter_defaults_witness :
    ∃ seg : AudioSegment,
      parseChapter ⟨some 5, some 9, none, none, none, none⟩ = .ok seg
      ∧ seg.start_ms = 5 ∧ seg.end_ms = 9
      ∧ ((none : Option String) = none → seg.sentiment = "neutral")
      ∧ (∀ v, (none : Option String) = some v → seg.sentiment = v)
      ∧ ((none : Option ℚ) = none → seg.confidence = 1)
      ∧ (∀ v, (none : Option ℚ) = some v → seg.confidence = v)
      ∧ ((none : Option String) = none → seg.text = "")
      ∧ (∀ v, (none : Option String) = some v → seg.text = v)
      ∧ ((none : Option (List String)) = none → seg.topics = [])
      ∧ (∀ v, (none : Option (List String)) = some v → seg.topics = v)
      ∧ (∀ t : TranscriptJson, t.chapters = some [⟨some 5, some 9, none, none, none, none⟩] →
          processResults t = .ok [seg]) :=
  parseChapter_defaults ⟨some 5, some 9, none, none, none, none⟩ 5 9 rfl rfl

/-- Claim C10: parsing is partial in the mandatory time fields — a chapter
without `start` fails with `KeyError "start"`, one with `start` but without
`end` fails with `KeyError "end"` (no default, no defined error kind), while
chapters with both time fields parse successfully whatever else is absent;
a completed transcript containing such a chapter propagates the KeyError. -/
theorem parseChapter_keyError (c : Chapter) :
    (c.start = none → parseChapter c = .error (.keyError "start"))
    ∧ (∀ s : Int, c.start = some s → c.«end» = none →
        parseChapter c = .error (.keyError "end"))
    ∧ (∀ s e : Int, c.start = some s → c.«end» = some e →
        ∃ seg : AudioSegment, parseChapter c = .ok seg)
    ∧ (∀ t : TranscriptJson, t.chapters = some [c] → c.start = none →
        processResults t = .error (.keyError "start")) := by
  refine ⟨?_, ?_, ?_, ?_⟩
  · intro h; simp [parseChapter, h]
  · intro s hs he; simp [parseChapter, hs, he]
  · intro s e hs he
    exact ⟨⟨s, e, c.summary.getD "", c.topics.getD [], c.sentiment.getD "neutral",
      c.confidence.getD 1⟩, by simp [parseChapter, hs, he]⟩
  · intro t ht h
    simp [processResults, ht, parseChapters, parseChapter, h]

/-- Claim C10 witness: concrete chapters lacking `start` or `end`. -/
theorem parseChapter_keyError_witness :
    (parseChapter ⟨none, some 9, none, none, none, none⟩ = .error (.keyError "start"))
    ∧ (parseChapter ⟨some 5, none, none, none, none, none⟩ = .error (.keyError "end"))
    ∧ (∃ seg : AudioSegment, parseChapter ⟨some 5, some 9, none, none, none, none⟩ = .ok seg)
    ∧ (processResults ⟨some "completed", none, some [⟨none, some 9, none, none, none, none⟩]⟩
        = .error (.keyError "start")) :=
  ⟨(parseChapter_keyError _).1 rfl,
   (parseChapter_keyError _).2.1 5 rfl rfl,
   (parseChapter_keyError _).2.2.1 5 9 rfl rfl,
   (parseChapter_keyError _).2.2.2 ⟨some "completed", none,
      some [⟨none, some 9, none, none, none, none⟩]⟩ rfl rfl⟩
